import Mathlib

/-!
Verification of the help-desk client (Super Mega Chamados TI).

This file is a shallow embedding of the client-side application logic of the
repository: the Supabase persistence gateway (supabase-db helper functions),
the application store, the sync controller (loadData of the Supabase and
cloud revisions), the dashboard rendering logic, the password-reset handlers,
and the bounded ErrorLogger ring buffer.  Each JavaScript function is
translated into a pure Lean function; browser/back-end effects (the
authenticated user, backend-assigned ids and timestamps, backend failures)
become explicit parameters, and UI effects (status indicator, toasts,
blocking dialogs, renders, persistence calls) become explicit fields of the
result values.
-/

namespace HelpDesk

/-- A row of the profiles table (Supabase revision). -/
structure Profile where
  id : String
  email : String
  full_name : String
  role : String
deriving Repr, DecidableEq

/-- The authenticated user object returned by supabase.auth (only the fields
the client reads). -/
structure AuthUser where
  id : String
  email : String
deriving Repr, DecidableEq

/-- Embedded creator profile as selected by getTickets
(created_by_profile: full_name, email). -/
structure CreatorProfile where
  full_name : String
  email : String
deriving Repr, DecidableEq

/-- A row of the tickets table (Supabase revision).  Optional fields model
columns that may be null / absent on a given row.  byUser is not a column the
Supabase gateway ever writes: it is the creator display-name field of the
earlier localStorage revision, still read by the Supabase revision's
renderDashboard filter; on every row produced by the Supabase gateway it is
absent, modelled as none. -/
structure SupaTicket where
  id : String
  title : String
  category : String
  description : String
  department : String
  status : String
  created_at : String
  updated_at : Option String
  created_by : Option String
  attachment_url : Option String
  created_by_profile : Option CreatorProfile
  byUser : Option String
deriving Repr, DecidableEq

/-- The backend database state seen by the gateway functions. -/
structure Database where
  profiles : List Profile
  tickets : List SupaTicket
deriving Repr, DecidableEq

/-- The ticketData argument of createTicket (built by handleSubmitTicket from
the submission form; attachment is the file name, or null when no file was
chosen). -/
structure TicketData where
  name : String
  email : String
  department : String
  category : String
  description : String
  attachment : Option String
deriving Repr, DecidableEq

/-- JavaScript `x || null` on a nullable string: a falsy value (null or the
empty string) becomes null. -/
def jsStringOrNull : Option String → Option String
  | some "" => none
  | x => x

/-- The admin email hardcoded in signIn and getCurrentUser
(src/unnamed/part_002): ransay@supermegavendas.com. -/
def adminEmail : String := "ransay@supermegavendas.com"

/-- JavaScript Array.prototype.findIndex, with none standing for the -1
returned when no element satisfies the predicate. -/
def jsFindIndex {α : Type} (p : α → Bool) : List α → Option Nat
  | [] => none
  | a :: as =>
    if p a then some 0 else (jsFindIndex p as).map (fun i => i + 1)

/-- Lookup of a profiles row by id:
supabase.from(profiles).select().eq(id, uid).single().  Ids are the table's
primary key, so the first match is the single match. -/
def findProfile (profiles : List Profile) (uid : String) : Option Profile :=
  profiles.find? (fun p => p.id = uid)

/-- signIn (src/unnamed/part_002, lines 42-73) after a successful
supabase.auth.signInWithPassword: uid is the authenticated user's id (the
password check itself lives in the external auth provider).  The profile row
is fetched; when its email is the hardcoded admin email and its stored role
is not admin, the returned profile is promoted to role admin and the
promotion is also written back to the profiles table.  Returns the resulting
session profile together with the possibly-updated profiles table; none
models the catch branch (profile row missing). -/
def signIn (profiles : List Profile) (uid : String) :
    Option Profile × List Profile :=
  match findProfile profiles uid with
  | none => (none, profiles)
  | some q =>
    if q.email = adminEmail ∧ q.role ≠ "admin" then
      (some { q with role := "admin" },
       profiles.map (fun p => if p.id = q.id then { p with role := "admin" } else p))
    else
      (some q, profiles)

/-- getCurrentUser (src/unnamed/part_002, lines 88-114): restores the session
profile for the stored session's user id (none when no session is present or
the profile row is missing), applying the same admin-email promotion, this
time without the database write. -/
def getCurrentUser (profiles : List Profile) (sess : Option String) :
    Option Profile :=
  match sess with
  | none => none
  | some uid =>
    match findProfile profiles uid with
    | none => none
    | some q =>
      if q.email = adminEmail ∧ q.role ≠ "admin" then
        some { q with role := "admin" }
      else
        some q

/-- The row inserted by createTicket (src/unnamed/part_002, lines 118-150).
The backend assigns the row id and creation timestamp (parameters newId,
now); created_by is set to the authenticated user's id and omitted (none)
for an unauthenticated caller; attachment_url is ticketData.attachment with
JavaScript falsy coercion to null. -/
def createTicketRow (user : Option AuthUser) (td : TicketData)
    (newId now : String) : SupaTicket :=
  { id := newId
    title := td.category
    category := td.category
    description := td.description
    department := td.department
    status := "open"
    created_at := now
    updated_at := none
    created_by := user.map (fun u => u.id)
    attachment_url := jsStringOrNull td.attachment
    created_by_profile := none
    byUser := none }

/-- Result value of createTicket. -/
structure CreateResult where
  success : Bool
  ticket : Option SupaTicket
deriving Repr, DecidableEq

/-- createTicket (src/unnamed/part_002, lines 118-150).  backendError models
a failure of the insert reported by Supabase (network / database error);
there is no authentication gate: the insert proceeds for user = none. -/
def createTicket (user : Option AuthUser) (td : TicketData)
    (newId now : String) (backendError : Option String) : CreateResult :=
  match backendError with
  | some _ => { success := false, ticket := none }
  | none => { success := true, ticket := some (createTicketRow user td newId now) }

/-- Result value of getTickets. -/
structure TicketsResult where
  success : Bool
  tickets : List SupaTicket
  errMsg : Option String
deriving Repr, DecidableEq

/-- getTickets (src/unnamed/part_002, lines 152-190).  With no authenticated
user it returns success with an empty list before issuing any query, so a
backend failure (backendError) cannot affect that path.  With a user, the
profile row is fetched (its error is discarded by the destructuring, so a
missing profile simply leaves the query unfiltered); a non-admin role narrows
the query to created_by = user.id.  The order-by created_at clause of the
source only permutes the rows and is omitted: all properties proved below are
order-insensitive. -/
def getTickets (db : Database) (user : Option AuthUser)
    (backendError : Option String) : TicketsResult :=
  match user with
  | none => { success := true, tickets := [], errMsg := none }
  | some u =>
    match backendError with
    | some msg => { success := false, tickets := [], errMsg := some msg }
    | none =>
      match findProfile db.profiles u.id with
      | some prof =>
        if prof.role ≠ "admin" then
          { success := true
            tickets := db.tickets.filter (fun t => t.created_by = some u.id)
            errMsg := none }
        else
          { success := true, tickets := db.tickets, errMsg := none }
      | none => { success := true, tickets := db.tickets, errMsg := none }

/-- The role-based dashboard filter of the Supabase revision's
renderDashboard (src/unnamed/part_001, lines 400-405): an admin sees
store.tickets unfiltered; any other role sees only the tickets whose byUser
field is the string Usuario (with accent), a field no Supabase row carries. -/
def displayTicketsSupabase (user : Profile) (tickets : List SupaTicket) :
    List SupaTicket :=
  if user.role ≠ "admin" then
    tickets.filter (fun t => t.byUser = some "Usuário")
  else
    tickets

/-- A user record of the pre-hosted-auth revisions (store.users): plaintext
password held client-side.  full_name is optional because the part_001 seed
users lack it while the cloud revision's admin seed carries it. -/
structure StoredUser where
  id : String
  email : String
  password : String
  username : String
  role : String
  full_name : Option String
deriving Repr, DecidableEq

/-- The ticket-submission form fields read by handleSubmitTicket. -/
structure TicketForm where
  name : String
  email : String
  department : String
  category : String
  description : String
  attachment : Option String
deriving Repr, DecidableEq

/-- A ticket of the cloud revision of script.js (the object literal built by
handleSubmitTicket, lines 799-810): created_by is store.user.id when a
session is active and null otherwise. -/
structure Ticket2 where
  id : String
  category : String
  description : String
  department : String
  status : String
  created_at : String
  created_by : Option String
  full_name : String
  email : String
  attachment : Option String
deriving Repr, DecidableEq

/-- The ticket object literal of handleSubmitTicket (src/script.js, lines
799-810).  The id is the randomly generated tag and now the creation time,
both passed in as parameters. -/
def buildTicket2 (user : Option StoredUser) (form : TicketForm)
    (newId now : String) : Ticket2 :=
  { id := newId
    category := form.category
    description := form.description
    department := form.department
    status := "Aberto"
    created_at := now
    created_by := user.map (fun u => u.id)
    full_name := form.name
    email := form.email
    attachment := form.attachment }

/-- handleSubmitTicket (src/script.js, lines 791-831) on the store's ticket
collection: the new ticket is unshifted onto the front of store.tickets. -/
def handleSubmitTicket2 (user : Option StoredUser) (form : TicketForm)
    (tickets : List Ticket2) (newId now : String) : List Ticket2 :=
  buildTicket2 user form newId now :: tickets

/-- The role-based dashboard filter of the cloud revision's renderDashboard
(src/script.js, lines 849-853): an admin sees store.tickets unfiltered; any
other role sees exactly the tickets with created_by = store.user.id. -/
def displayTicketsCloud (user : StoredUser) (tickets : List Ticket2) :
    List Ticket2 :=
  if user.role ≠ "admin" then
    tickets.filter (fun t => t.created_by = some user.id)
  else
    tickets

/-- The total stat of renderDashboard (store.tickets.length). -/
def totalCount (tickets : List SupaTicket) : Nat :=
  tickets.length

/-- The open stat of renderDashboard: tickets with status Aberto
(src/unnamed/part_001, line 410; identical in src/script.js line 212). -/
def openCount (tickets : List SupaTicket) : Nat :=
  (tickets.filter (fun t => t.status = "Aberto")).length

/-- Count of the in-progress status value Em atendimento (the third enum
value offered by getAdminActions); the dashboard computes no counter for it,
but the spec's counter identity refers to this count. -/
def inProgressCount (tickets : List SupaTicket) : Nat :=
  (tickets.filter (fun t => t.status = "Em atendimento")).length

/-- The resolved stat of renderDashboard: tickets with status Resolvido
(src/unnamed/part_001, line 411; identical in src/script.js line 213). -/
def resolvedCount (tickets : List SupaTicket) : Nat :=
  (tickets.filter (fun t => t.status = "Resolvido")).length

/-- The in-place status assignment of window.updateTicketStatus: the first
ticket whose id matches (the one located by findIndex) gets its status field
replaced; every other ticket is untouched. -/
def setStatusAt : List Ticket2 → String → String → List Ticket2
  | [], _, _ => []
  | t :: ts, tid, s =>
    if t.id = tid then { t with status := s } :: ts
    else t :: setStatusAt ts tid s

/-- The observable outcome of window.updateTicketStatus: the resulting
store.tickets and whether persistStore, renderDashboard and showToast were
invoked. -/
structure UpdateOutcome where
  tickets : List Ticket2
  persisted : Bool
  rendered : Bool
  toasted : Bool
deriving Repr, DecidableEq

/-- window.updateTicketStatus (src/script.js, lines 951-959; identical in
src/unnamed/part_001, lines 481-489): findIndex locates the ticket; when
found (index > -1) the status is assigned and persistStore, renderDashboard
and showToast run; otherwise nothing at all happens. -/
def updateTicketStatusClient (tickets : List Ticket2) (tid s : String) :
    UpdateOutcome :=
  if tickets.any (fun t => t.id = tid) then
    { tickets := setStatusAt tickets tid s
      persisted := true
      rendered := true
      toasted := true }
  else
    { tickets := tickets, persisted := false, rendered := false, toasted := false }

/-- The row transform of the gateway updateTicketStatus: every tickets row
with the given id gets status = newStatus and updated_at = now. -/
def applyStatusUpdate (tid s now : String) (t : SupaTicket) : SupaTicket :=
  if t.id = tid then { t with status := s, updated_at := some now } else t

/-- Result value of the gateway updateTicketStatus: the resulting tickets
table, the returned row, and the success flag. -/
structure DbUpdateResult where
  success : Bool
  ticket : Option SupaTicket
  db : List SupaTicket
deriving Repr, DecidableEq

/-- updateTicketStatus (src/unnamed/part_002, lines 192-209):
update({status, updated_at}).eq(id, ticketId).select().single().  The update
statement rewrites every matching row; single() then errors unless exactly
one row was selected, which the catch turns into success: false.  now is the
new Date().toISOString() timestamp taken at the call. -/
def dbUpdateTicketStatus (tickets : List SupaTicket) (tid s now : String) :
    DbUpdateResult :=
  let updated := tickets.map (applyStatusUpdate tid s now)
  match updated.filter (fun t => t.id = tid) with
  | [t] => { success := true, ticket := some t, db := updated }
  | _ => { success := false, ticket := none, db := updated }

/-- The application store of the Supabase revision (src/unnamed/part_001,
lines 103-108): current view, session user profile, ticket and user
collections. -/
structure Store1 where
  view : String
  user : Option Profile
  tickets : List SupaTicket
  users : List StoredUser
deriving Repr, DecidableEq

/-- The application store of the cloud revision (src/script.js, lines
492-497). -/
structure Store2 where
  view : String
  user : Option StoredUser
  tickets : List Ticket2
  users : List StoredUser
deriving Repr, DecidableEq

/-- Observable outcome of a loadData refresh on the Supabase-revision store:
the resulting store, the last updateStatus argument, whether a blocking
dialog (alert / confirm / prompt) was raised anywhere on that refresh, and
whether an error toast was shown anywhere on it — including inside the
gateway call that produced the result, since ErrorLogger.log shows a toast
for every error-level entry (src/unnamed/part_001, lines 45-47). -/
structure SyncOutcome1 where
  store : Store1
  status : String
  blockingDialog : Bool
  errorToast : Bool
deriving Repr, DecidableEq

/-- Observable outcome of a loadData refresh on the cloud-revision store. -/
structure SyncOutcome2 where
  store : Store2
  status : String
  blockingDialog : Bool
  errorToast : Bool
deriving Repr, DecidableEq

/-- The fallback seed users of the Supabase revision's loadData
(src/unnamed/part_001, lines 144-150), installed only when store.users is
empty. -/
def seedUsers : List StoredUser :=
  [ { id := "u1", email := "ransay@supermegavendas.com", password := "admin123"
      username := "Ransay (Gestor)", role := "admin", full_name := none },
    { id := "u2", email := "user", password := "user123"
      username := "Usuário", role := "user", full_name := none },
    { id := "u3", email := "user@email.com", password := "user123"
      username := "Usuário Padrão", role := "user", full_name := none } ]

/-- loadData of the Supabase revision (src/unnamed/part_001, lines 125-151),
including the toast of the gateway call whose result it consumes.  result is
the value returned by getTickets.  On success the ticket collection is
replaced wholesale and the status becomes connected; on failure the status
becomes error and store.tickets is untouched, but an error toast has
already been shown: getTickets only returns success false from its catch,
which calls ErrorLogger.error (src/unnamed/part_002, line 187), and every
error-level log shows a toast; loadData itself then adds only a warn, which
does not toast, and no blocking dialog exists on either path.  In both
branches the seed users are installed when store.users is empty. -/
def loadData1 (st : Store1) (result : TicketsResult) : SyncOutcome1 :=
  if result.success then
    { store :=
        { st with
          tickets := result.tickets
          users := if st.users.length = 0 then seedUsers else st.users }
      status := "connected"
      blockingDialog := false
      errorToast := false }
  else
    { store :=
        { st with
          users := if st.users.length = 0 then seedUsers else st.users }
      status := "error"
      blockingDialog := false
      errorToast := true }

/-- The JSON payload of the cloud database (fetchDB result): either field may
be absent. -/
structure CloudData where
  tickets : Option (List Ticket2)
  users : Option (List StoredUser)
deriving Repr, DecidableEq

/-- The admin seed of the cloud revision's loadData catch branch
(src/script.js, lines 530-537). -/
def ransaySeed : StoredUser :=
  { id := "u_ransay", email := "ransay@supermegavendas.com"
    password := "admin", username := "Ransay (Gestor)", role := "admin"
    full_name := some "Ransay (Gestor)" }

/-- The catch branch of the cloud revision's loadData: ensure the admin user
exists in store.users (findIndex on lowercased email; push when absent). -/
def ensureAdminUser (users : List StoredUser) : List StoredUser :=
  if jsFindIndex (fun u => u.email.toLower = adminEmail) users = none then
    users ++ [ransaySeed]
  else
    users

/-- loadData of the cloud revision (src/script.js, lines 508-541), including
the toast of the fetchDB call whose result it consumes.  fetched is the
fetchDB result: none when fetchDB threw (network error, non-success status,
malformed body) — on that path fetchDB's catch has already called
ErrorLogger.error (src/script.js, line 460) before rethrowing, so an error
toast was shown.  A payload with neither tickets nor users instead throws
EMPTY_DATA directly inside loadData's try, landing in the same catch but
with no error-level log and hence no toast.  The catch sets the status to
error, leaves store.tickets untouched, seeds the admin user into store.users
when missing, and raises no blocking dialog. -/
def loadData2 (st : Store2) (fetched : Option CloudData) : SyncOutcome2 :=
  match fetched with
  | some d =>
    if d.tickets.isSome || d.users.isSome then
      { store := { st with tickets := d.tickets.getD [], users := d.users.getD [] }
        status := "connected"
        blockingDialog := false
        errorToast := false }
    else
      { store := { st with users := ensureAdminUser st.users }
        status := "error"
        blockingDialog := false
        errorToast := false }
  | none =>
    { store := { st with users := ensureAdminUser st.users }
      status := "error"
      blockingDialog := false
      errorToast := true }

/-- The password write of updateUserPassword (src/script.js, lines
1059-1065): the user at the given index gets the new password. -/
def updatePasswordAt : List StoredUser → Nat → String → List StoredUser
  | [], _, _ => []
  | u :: us, 0, p => { u with password := p } :: us
  | u :: us, Nat.succ i, p => u :: updatePasswordAt us i p

/-- Outcome of handleResetSubmit: the resulting store.users, the toast text
shown, and whether any password was written. -/
structure ResetOutcome where
  users : List StoredUser
  notice : String
  changed : Bool
deriving Repr, DecidableEq

/-- handleResetSubmit (src/script.js, lines 1007-1057; identical in
src/unnamed/part_001, lines 537-587).  targetEmail is store.user.email for a
self reset or the typed email for an admin resetting another user.  The
checks run in source order: password-confirmation mismatch, then
empty-or-too-short password (JavaScript !newPass catches the empty string),
then target-user lookup with the literal dead special case for the seed
username user (it re-runs the very findIndex that just returned -1), then
the new-equals-old rejection, then the write via updateUserPassword. -/
def handleResetSubmit (users : List StoredUser) (targetEmail np cp : String) :
    ResetOutcome :=
  if np ≠ cp then
    { users := users, notice := "As senhas não coincidem.", changed := false }
  else if np = "" ∨ np.length < 3 then
    { users := users, notice := "Senha muito curta.", changed := false }
  else
    match jsFindIndex (fun u => u.email = targetEmail) users with
    | none =>
      if targetEmail = "user" then
        match jsFindIndex (fun u => u.email = "user") users with
        | some j =>
          { users := updatePasswordAt users j np
            notice := "Senha alterada com sucesso!", changed := true }
        | none =>
          { users := users
            notice := "Usuário não encontrado com este e-mail.", changed := false }
      else
        { users := users
          notice := "Usuário não encontrado com este e-mail.", changed := false }
    | some i =>
      if (users.get? i).map StoredUser.password = some np then
        { users := users
          notice := "A nova senha deve ser diferente da anterior.", changed := false }
      else
        { users := updatePasswordAt users i np
          notice := "Senha alterada com sucesso!", changed := true }

/-- The error detail captured in a log entry (message, stack, name of the
Error object), when one was supplied. -/
structure LogErrorDetail where
  message : String
  stack : Option String
  name : String
deriving Repr, DecidableEq

/-- A log entry of ErrorLogger.log (src/script.js, lines 343-354; identical
in src/unnamed/part_001, lines 13-24): timestamp, severity level, message,
optional error detail, plus the captured user agent and URL. -/
structure LogEntry where
  timestamp : String
  level : String
  message : String
  errorDetail : Option LogErrorDetail
  userAgent : String
  url : String
deriving Repr, DecidableEq

/-- ErrorLogger.maxLogs (src/script.js, line 339). -/
def maxLogs : Nat := 100

/-- The buffer step of ErrorLogger.log (src/script.js, lines 356-359): push
the entry, then shift the oldest entry off when the length exceeds
maxLogs. -/
def logPush (logs : List LogEntry) (e : LogEntry) : List LogEntry :=
  let pushed := logs ++ [e]
  if maxLogs < pushed.length then pushed.tail else pushed

/-! Concrete sample values used by closed theorems and witnesses. -/

/-- A sample non-admin account (the seed user Usuario Padrao). -/
def sampleAuthUser : AuthUser :=
  { id := "u3", email := "user@email.com" }

/-- The profiles row of the sample non-admin account. -/
def sampleProfile : Profile :=
  { id := "u3", email := "user@email.com"
    full_name := "Usuário Padrão", role := "user" }

/-- A sample ticket submission (the example scenario of the spec). -/
def sampleTicketData : TicketData :=
  { name := "Usuário Padrão", email := "user@email.com", department := "TI"
    category := "Hardware", description := "Monitor not turning on"
    attachment := none }

/-- The ticket row the gateway stores for the sample submission made while
the sample account is signed in. -/
def sampleTicket : SupaTicket :=
  createTicketRow (some sampleAuthUser) sampleTicketData "t1" "2026-01-01T00:00:00Z"

/-- A backend holding the sample profile and the sample ticket. -/
def sampleDb : Database :=
  { profiles := [sampleProfile], tickets := [sampleTicket] }

/-- A sample admin profile. -/
def sampleAdminProfile : Profile :=
  { id := "u1", email := adminEmail, full_name := "Ransay (Gestor)", role := "admin" }

/-- A sample cloud-revision ticket submitted by the signed-in seed user u3. -/
def sampleTicket2 : Ticket2 :=
  buildTicket2 (some { id := "u3", email := "user@email.com", password := "user123"
                       username := "Usuário Padrão", role := "user", full_name := none })
    { name := "Usuário Padrão", email := "user@email.com", department := "TI"
      category := "Hardware", description := "Monitor not turning on", attachment := none }
    "#1234" "2026-01-01T00:00:00Z"

/-- A sample log entry with an error detail. -/
def sampleEntry : LogEntry :=
  { timestamp := "2026-01-01T00:00:00Z", level := "error"
    message := "Erro ao carregar chamados"
    errorDetail := some { message := "fetch failed", stack := none, name := "TypeError" }
    userAgent := "UA", url := "https://example.test/" }

/-- A second sample log entry without an error detail. -/
def sampleEntry2 : LogEntry :=
  { timestamp := "2026-01-01T00:00:01Z", level := "info"
    message := "Dados carregados do Supabase", errorDetail := none
    userAgent := "UA", url := "https://example.test/" }

/-! Helper lemmas. -/

/-- jsFindIndex returns none exactly when no element satisfies the
predicate. -/
theorem jsFindIndex_eq_none_iff {α : Type} (p : α → Bool) (l : List α) :
    jsFindIndex p l = none ↔ ∀ x ∈ l, p x = false := by
  induction l with
  | nil => simp [jsFindIndex]
  | cons a as ih =>
    cases hpa : p a with
    | true => simp [jsFindIndex, hpa, List.forall_mem_cons]
    | false =>
      simp [jsFindIndex, hpa, List.forall_mem_cons, Option.map_eq_none', ih]

/-- A successful jsFindIndex exhibits a matching element. -/
theorem jsFindIndex_some_mem {α : Type} (p : α → Bool) (l : List α) (i : Nat)
    (h : jsFindIndex p l = some i) : ∃ x ∈ l, p x = true := by
  induction l generalizing i with
  | nil => simp [jsFindIndex] at h
  | cons a as ih =>
    by_cases hp : p a
    · exact ⟨a, List.mem_cons_self a as, hp⟩
    · simp only [jsFindIndex, hp, if_neg, Bool.false_eq_true, ite_false, Option.map_eq_some'] at h
      obtain ⟨j, hj, _⟩ := h
      obtain ⟨x, hx, hpx⟩ := ih j hj
      exact ⟨x, List.mem_cons_of_mem a hx, hpx⟩

/-- The three status counters partition the collection when every status is
one of the three enum values. -/
theorem count_status_partition (ts : List SupaTicket)
    (h : ∀ t ∈ ts, t.status = "Aberto" ∨ t.status = "Em atendimento" ∨ t.status = "Resolvido") :
    totalCount ts = openCount ts + inProgressCount ts + resolvedCount ts := by
  induction ts with
  | nil => rfl
  | cons t ts ih =>
    have ht := h t (List.mem_cons_self t ts)
    have hts := ih (fun x hx => h x (List.mem_cons_of_mem t hx))
    simp only [totalCount, openCount, inProgressCount, resolvedCount,
      List.filter_cons, List.length_cons] at hts ⊢
    rcases ht with h1 | h1 | h1 <;> simp [h1] <;> omega

/-! Claim theorems. -/

/-- C6: getTickets invoked with no authenticated caller returns a success
result carrying an empty ticket sequence, not an error — even when the
backend would fail, since the unauthenticated branch returns before any
query is issued. -/
theorem getTickets_unauthenticated_empty_success (db : Database)
    (backendError : Option String) :
    getTickets db none backendError =
      { success := true, tickets := [], errMsg := none } := rfl

/-- C2: whenever the profiles row fetched at login (signIn) or session
restore (getCurrentUser) carries the hardcoded administrator email, the
resulting session profile has role admin, regardless of the role value
stored on that row. -/
theorem signIn_getCurrentUser_admin_email_promotion (profiles : List Profile)
    (uid : String) (q : Profile)
    (hq : findProfile profiles uid = some q) (he : q.email = adminEmail) :
    (∃ p, (signIn profiles uid).1 = some p ∧ p.role = "admin")
  ∧ (∃ p, getCurrentUser profiles (some uid) = some p ∧ p.role = "admin") := by
  constructor
  · by_cases hr : q.role = "admin"
    · exact ⟨q, by simp [signIn, hq, hr], hr⟩
    · exact ⟨{ q with role := "admin" }, by simp [signIn, hq, he, hr], rfl⟩
  · by_cases hr : q.role = "admin"
    · exact ⟨q, by simp [getCurrentUser, hq, hr], hr⟩
    · exact ⟨{ q with role := "admin" }, by simp [getCurrentUser, hq, he, hr], rfl⟩

/-- C2 witness: a stored role of user on the admin-email account is promoted
to admin both by signIn and by getCurrentUser. -/
theorem admin_email_promotion_witness :
    (∃ p, (signIn [{ id := "u9", email := adminEmail
                     full_name := "Ransay", role := "user" }] "u9").1 = some p
          ∧ p.role = "admin")
  ∧ (∃ p, getCurrentUser [{ id := "u9", email := adminEmail
                            full_name := "Ransay", role := "user" }] (some "u9") = some p
          ∧ p.role = "admin") :=
  signIn_getCurrentUser_admin_email_promotion _ "u9"
    { id := "u9", email := adminEmail, full_name := "Ransay", role := "user" }
    (by decide) rfl

/-- C3: ticket submission with no active session succeeds and stores a null
creator reference; submission with an active session stores the session
user's id as the creator reference — both at the Supabase gateway
(createTicket) and in the cloud revision's handleSubmitTicket, which also
unshifts the new ticket onto the store. -/
theorem createTicket_creator_reference (td : TicketData) (au : AuthUser)
    (u : StoredUser) (form : TicketForm) (tickets : List Ticket2)
    (newId now : String) :
    (createTicket none td newId now none).success = true
  ∧ (createTicket none td newId now none).ticket
      = some (createTicketRow none td newId now)
  ∧ (createTicketRow none td newId now).created_by = none
  ∧ (createTicket (some au) td newId now none).success = true
  ∧ (createTicketRow (some au) td newId now).created_by = some au.id
  ∧ (buildTicket2 none form newId now).created_by = none
  ∧ (buildTicket2 (some u) form newId now).created_by = some u.id
  ∧ handleSubmitTicket2 (some u) form tickets newId now
      = buildTicket2 (some u) form newId now :: tickets :=
  ⟨rfl, rfl, rfl, rfl, rfl, rfl, rfl, rfl⟩

/-- C1: the Supabase gateway does scope a non-admin caller's tickets to
created_by = session id, but the Supabase revision's dashboard then filters
the already-scoped collection by byUser = Usuario, a field no row produced
by that gateway carries — so the displayed collection omits the session
user's own ticket instead of containing exactly their tickets.  Concretely:
the sample non-admin user's own ticket is returned by getTickets yet
displayTickets is empty. -/
theorem part001_dashboard_drops_own_ticket :
    sampleProfile.role ≠ "admin"
  ∧ sampleTicket.created_by = some sampleAuthUser.id
  ∧ (getTickets sampleDb (some sampleAuthUser) none).tickets = [sampleTicket]
  ∧ displayTicketsSupabase sampleProfile [sampleTicket] = [] := by
  refine ⟨by decide, rfl, ?_, ?_⟩ <;> rfl

/-- C4: for an admin session the dashboard displays the full ticket
collection (in both the Supabase and the cloud revision), and under the
three-value status enum the counters satisfy
total = open + in-progress + resolved. -/
theorem admin_dashboard_full_and_counters (u1 : Profile) (u2 : StoredUser)
    (ts : List SupaTicket) (ts2 : List Ticket2)
    (h1 : u1.role = "admin") (h2 : u2.role = "admin")
    (henum : ∀ t ∈ ts,
      t.status = "Aberto" ∨ t.status = "Em atendimento" ∨ t.status = "Resolvido") :
    displayTicketsSupabase u1 ts = ts
  ∧ displayTicketsCloud u2 ts2 = ts2
  ∧ totalCount ts = openCount ts + inProgressCount ts + resolvedCount ts := by
  refine ⟨?_, ?_, count_status_partition ts henum⟩
  · simp [displayTicketsSupabase, h1]
  · simp [displayTicketsCloud, h2]

/-- C4 witness: the admin dashboard over one open and one resolved ticket
displays both and the counters add up. -/
theorem admin_dashboard_witness :
    displayTicketsSupabase sampleAdminProfile
        [{ sampleTicket with status := "Aberto" },
         { sampleTicket with id := "t2", status := "Resolvido" }]
      = [{ sampleTicket with status := "Aberto" },
         { sampleTicket with id := "t2", status := "Resolvido" }]
  ∧ displayTicketsCloud ransaySeed [sampleTicket2] = [sampleTicket2]
  ∧ totalCount [{ sampleTicket with status := "Aberto" },
                { sampleTicket with id := "t2", status := "Resolvido" }]
      = openCount [{ sampleTicket with status := "Aberto" },
                   { sampleTicket with id := "t2", status := "Resolvido" }]
        + inProgressCount [{ sampleTicket with status := "Aberto" },
                           { sampleTicket with id := "t2", status := "Resolvido" }]
        + resolvedCount [{ sampleTicket with status := "Aberto" },
                         { sampleTicket with id := "t2", status := "Resolvido" }] :=
  admin_dashboard_full_and_counters sampleAdminProfile ransaySeed _ _
    rfl rfl (by decide)

/-- setStatusAt does not change any ticket id, so the findIndex test of a
second identical call sees the same outcome. -/
theorem setStatusAt_any_id (ts : List Ticket2) (tid s : String) :
    (setStatusAt ts tid s).any (fun t => t.id = tid)
      = ts.any (fun t => t.id = tid) := by
  induction ts with
  | nil => rfl
  | cons t ts ih =>
    by_cases h : t.id = tid
    · simp [setStatusAt, h]
    · simp [setStatusAt, h, ih]

/-- Writing the same status twice is the same as writing it once. -/
theorem setStatusAt_idem (ts : List Ticket2) (tid s : String) :
    setStatusAt (setStatusAt ts tid s) tid s = setStatusAt ts tid s := by
  induction ts with
  | nil => rfl
  | cons t ts ih =>
    by_cases h : t.id = tid
    · simp [setStatusAt, h]
    · simp [setStatusAt, h, ih]

/-- Applying the row transform of the gateway update twice (with the same
timestamp) equals applying it once. -/
theorem applyStatusUpdate_comp (tid s now : String) (t : SupaTicket) :
    applyStatusUpdate tid s now (applyStatusUpdate tid s now t)
      = applyStatusUpdate tid s now t := by
  by_cases h : t.id = tid <;> simp [applyStatusUpdate, h]

/-- The gateway update leaves its updated table as the map of the row
transform, in the success and in the error case alike. -/
theorem dbUpdate_db (dbts : List SupaTicket) (tid s now : String) :
    (dbUpdateTicketStatus dbts tid s now).db
      = dbts.map (applyStatusUpdate tid s now) := by
  unfold dbUpdateTicketStatus
  dsimp only
  split <;> rfl

/-- The full result of the gateway update is unchanged by a second identical
application. -/
theorem dbUpdate_idem (dbts : List SupaTicket) (tid s now : String) :
    dbUpdateTicketStatus (dbUpdateTicketStatus dbts tid s now).db tid s now
      = dbUpdateTicketStatus dbts tid s now := by
  rw [dbUpdate_db]
  have hmap : (dbts.map (applyStatusUpdate tid s now)).map (applyStatusUpdate tid s now)
      = dbts.map (applyStatusUpdate tid s now) := by
    rw [List.map_map]
    exact List.map_congr_left (fun t _ => applyStatusUpdate_comp tid s now t)
  unfold dbUpdateTicketStatus
  rw [hmap]

/-- C5: status update is idempotent.  At the store level
(window.updateTicketStatus) a second identical call produces the identical
outcome (same tickets, same effects); at the gateway
(updateTicketStatus of the Supabase helper, timestamp included) a second
identical call returns the identical result, and in particular it does not
error when the first call succeeded. -/
theorem updateTicketStatus_idempotent (ts : List Ticket2)
    (dbts : List SupaTicket) (tid s now : String) :
    updateTicketStatusClient (updateTicketStatusClient ts tid s).tickets tid s
      = updateTicketStatusClient ts tid s
  ∧ dbUpdateTicketStatus (dbUpdateTicketStatus dbts tid s now).db tid s now
      = dbUpdateTicketStatus dbts tid s now
  ∧ ((dbUpdateTicketStatus dbts tid s now).success = true →
      (dbUpdateTicketStatus (dbUpdateTicketStatus dbts tid s now).db tid s now).success
        = true) := by
  refine ⟨?_, dbUpdate_idem dbts tid s now, ?_⟩
  · unfold updateTicketStatusClient
    by_cases h : ts.any (fun t => t.id = tid) = true
    · simp [h, setStatusAt_any_id, setStatusAt_idem]
    · simp [h]
  · intro h
    rw [dbUpdate_idem]
    exact h

/-- C5 witness: updating the sample ticket to Resolvido twice succeeds on
the second application as well. -/
theorem updateTicketStatus_idempotent_witness :
    (dbUpdateTicketStatus
        (dbUpdateTicketStatus [sampleTicket] "t1" "Resolvido" "2026-01-02T00:00:00Z").db
        "t1" "Resolvido" "2026-01-02T00:00:00Z").success = true :=
  (updateTicketStatus_idempotent [] [sampleTicket] "t1" "Resolvido"
    "2026-01-02T00:00:00Z").2.2 (by decide)

/-- C10: calling window.updateTicketStatus with a ticketId matching no
ticket in the collection is a silent no-op: the collection is unchanged and
neither persistStore nor renderDashboard nor showToast runs. -/
theorem updateTicketStatus_missing_id_noop (tickets : List Ticket2)
    (tid s : String) (h : ∀ t ∈ tickets, t.id ≠ tid) :
    updateTicketStatusClient tickets tid s =
      { tickets := tickets, persisted := false, rendered := false, toasted := false } := by
  unfold updateTicketStatusClient
  have hany : tickets.any (fun t => t.id = tid) = false := by
    rw [List.any_eq_false]
    intro t ht
    simp [h t ht]
  simp [hany]

/-- C10 witness: updating a ticket id absent from the store leaves the
sample store untouched with no effects. -/
theorem updateTicketStatus_missing_id_noop_witness :
    updateTicketStatusClient [sampleTicket2] "#9999" "Resolvido" =
      { tickets := [sampleTicket2], persisted := false
        rendered := false, toasted := false } :=
  updateTicketStatus_missing_id_noop [sampleTicket2] "#9999" "Resolvido" (by decide)

/-- C7 counterexample: the claim that a failed refresh changes only the
status indicator is false on the code: at a concrete failing refresh an
error toast is also shown — in the Supabase revision by getTickets's catch
(ErrorLogger.error, whose error level toasts) before loadData sees
success false, and in the cloud revision by fetchDB's catch before its
rethrow lands in loadData's catch. -/
theorem loadData_failure_raises_error_toast :
    (loadData1 { view := "dashboard", user := some sampleProfile
                 tickets := [sampleTicket], users := seedUsers }
        { success := false, tickets := [], errMsg := some "boom" }).errorToast = true
  ∧ (loadData2 { view := "dashboard", user := none
                 tickets := [sampleTicket2], users := [] } none).errorToast = true :=
  ⟨rfl, rfl⟩

/-- C7 (amended): a failed refresh sets the status indicator to error,
leaves the previously held in-memory ticket collection untouched and raises
no user-blocking dialog — but the status indicator is not the only visible
change: an error toast is also shown, raised by the gateway catch that
produced the failure (always in the Supabase revision; in the cloud revision
on the fetchDB-throw path, while its empty-payload failure alone is
toast-free). -/
theorem loadData_failure_status_and_tickets (st1 : Store1) (r : TicketsResult)
    (st2 : Store2) (fetched : Option CloudData)
    (h1 : r.success = false)
    (h2 : fetched = none
        ∨ ∃ d, fetched = some d ∧ d.tickets = none ∧ d.users = none) :
    ((loadData1 st1 r).store.tickets = st1.tickets
      ∧ (loadData1 st1 r).status = "error"
      ∧ (loadData1 st1 r).blockingDialog = false
      ∧ (loadData1 st1 r).errorToast = true)
  ∧ ((loadData2 st2 fetched).store.tickets = st2.tickets
      ∧ (loadData2 st2 fetched).status = "error"
      ∧ (loadData2 st2 fetched).blockingDialog = false)
  ∧ (fetched = none → (loadData2 st2 fetched).errorToast = true)
  ∧ (∀ d, fetched = some d → (loadData2 st2 fetched).errorToast = false) := by
  refine ⟨by simp [loadData1, h1], ?_, ?_, ?_⟩
  · rcases h2 with h | ⟨d, hd, ht, hu⟩
    · simp [loadData2, h]
    · simp [loadData2, hd, ht, hu]
  · intro h
    simp [loadData2, h]
  · intro d hd
    rcases h2 with h | ⟨d2, hd2, ht, hu⟩
    · rw [h] at hd
      exact Option.noConfusion hd
    · simp [loadData2, hd2, ht, hu]

/-- C7 witness: a fetch failure on stores holding the sample tickets keeps
the tickets, flips the indicator to error, blocks nothing, and shows the
error toast, in both revisions. -/
theorem loadData_failure_status_and_tickets_witness :
    ((loadData1 { view := "dashboard", user := some sampleProfile
                  tickets := [sampleTicket], users := seedUsers }
        { success := false, tickets := [], errMsg := some "boom" }).store.tickets
      = [sampleTicket])
  ∧ ((loadData2 { view := "dashboard", user := none
                  tickets := [sampleTicket2], users := [] } none).store.tickets
      = [sampleTicket2])
  ∧ ((loadData2 { view := "dashboard", user := none
                  tickets := [sampleTicket2], users := [] } none).errorToast = true) :=
  ⟨(loadData_failure_status_and_tickets
      { view := "dashboard", user := some sampleProfile
        tickets := [sampleTicket], users := seedUsers }
      { success := false, tickets := [], errMsg := some "boom" }
      { view := "dashboard", user := none, tickets := [sampleTicket2], users := [] }
      none rfl (Or.inl rfl)).1.1,
   (loadData_failure_status_and_tickets
      { view := "dashboard", user := some sampleProfile
        tickets := [sampleTicket], users := seedUsers }
      { success := false, tickets := [], errMsg := some "boom" }
      { view := "dashboard", user := none, tickets := [sampleTicket2], users := [] }
      none rfl (Or.inl rfl)).2.1.1,
   (loadData_failure_status_and_tickets
      { view := "dashboard", user := some sampleProfile
        tickets := [sampleTicket], users := seedUsers }
      { success := false, tickets := [], errMsg := some "boom" }
      { view := "dashboard", user := none, tickets := [sampleTicket2], users := [] }
      none rfl (Or.inl rfl)).2.2.1 rfl⟩

/-- C8: the password-reset submission leaves every stored password unchanged
and shows one of the three validation notices whenever the confirmation
differs, the new password is empty or below the minimum length, or the
target email matches no registered user; conversely the stored users change
only when all three validations pass. -/
theorem handleResetSubmit_validations (users : List StoredUser)
    (te np cp : String) :
    ((np ≠ cp ∨ np = "" ∨ np.length < 3 ∨ (∀ u ∈ users, u.email ≠ te)) →
        (handleResetSubmit users te np cp).users = users
      ∧ (handleResetSubmit users te np cp).changed = false
      ∧ ((handleResetSubmit users te np cp).notice = "As senhas não coincidem."
          ∨ (handleResetSubmit users te np cp).notice = "Senha muito curta."
          ∨ (handleResetSubmit users te np cp).notice
              = "Usuário não encontrado com este e-mail."))
  ∧ ((handleResetSubmit users te np cp).users ≠ users →
        np = cp ∧ np ≠ "" ∧ 3 ≤ np.length ∧ ∃ u ∈ users, u.email = te) := by
  unfold handleResetSubmit
  by_cases h1 : np ≠ cp
  · refine ⟨fun _ => ?_, fun hne => ?_⟩
    · simp [if_pos h1]
    · simp [if_pos h1] at hne
  · simp only [if_neg h1]
    by_cases h2 : np = "" ∨ np.length < 3
    · refine ⟨fun _ => ?_, fun hne => ?_⟩
      · simp [if_pos h2]
      · simp [if_pos h2] at hne
    · simp only [if_neg h2]
      cases hidx : jsFindIndex (fun u => decide (u.email = te)) users with
      | none =>
        by_cases h3 : te = "user"
        · subst h3
          refine ⟨fun _ => ?_, fun hne => ?_⟩
          · simp [hidx]
          · simp [hidx] at hne
        · refine ⟨fun _ => ?_, fun hne => ?_⟩
          · simp [if_neg h3]
          · simp [if_neg h3] at hne
      | some i =>
        have hex : ∃ u ∈ users, u.email = te := by
          obtain ⟨x, hx, px⟩ := jsFindIndex_some_mem _ users i hidx
          exact ⟨x, hx, of_decide_eq_true px⟩
        have habs :
            ¬(np ≠ cp ∨ np = "" ∨ np.length < 3 ∨ (∀ u ∈ users, u.email ≠ te)) := by
          intro h
          rcases h with d | d | d | d
          · exact h1 d
          · exact h2 (Or.inl d)
          · exact h2 (Or.inr d)
          · obtain ⟨x, hx, px⟩ := hex
            exact d x hx px
        have hvalid : np = cp ∧ np ≠ "" ∧ 3 ≤ np.length ∧ ∃ u ∈ users, u.email = te := by
          refine ⟨not_not.mp h1, (not_or.mp h2).1, Nat.not_lt.mp (not_or.mp h2).2, hex⟩
        by_cases h4 : (users.get? i).map StoredUser.password = some np
        · simp only [if_pos h4]
          exact ⟨fun h => absurd h habs, fun _ => hvalid⟩
        · simp only [if_neg h4]
          exact ⟨fun h => absurd h habs, fun _ => hvalid⟩

/-- C8 witness: resetting the password of an unregistered email leaves the
seed users unchanged and shows the user-not-found notice. -/
theorem handleResetSubmit_validations_witness :
    (handleResetSubmit seedUsers "nobody@example.com" "abcd" "abcd").users = seedUsers
  ∧ (handleResetSubmit seedUsers "nobody@example.com" "abcd" "abcd").changed = false
  ∧ ((handleResetSubmit seedUsers "nobody@example.com" "abcd" "abcd").notice
        = "As senhas não coincidem."
      ∨ (handleResetSubmit seedUsers "nobody@example.com" "abcd" "abcd").notice
        = "Senha muito curta."
      ∨ (handleResetSubmit seedUsers "nobody@example.com" "abcd" "abcd").notice
        = "Usuário não encontrado com este e-mail.") :=
  (handleResetSubmit_validations seedUsers "nobody@example.com" "abcd" "abcd").1
    (Or.inr (Or.inr (Or.inr (by decide))))

/-- One log call keeps the buffer within the bound. -/
theorem logPush_length_le (logs : List LogEntry) (e : LogEntry)
    (h : logs.length ≤ maxLogs) : (logPush logs e).length ≤ maxLogs := by
  unfold logPush
  dsimp only
  by_cases hc : maxLogs < (logs ++ [e]).length
  · rw [if_pos hc]
    simp only [List.length_tail, List.length_append, List.length_singleton]
    omega
  · rw [if_neg hc]
    simp only [List.length_append, List.length_singleton] at hc ⊢
    omega

/-- Any sequence of log calls starting within the bound stays within the
bound. -/
theorem foldl_logPush_length_le (es : List LogEntry) (acc : List LogEntry)
    (h : acc.length ≤ maxLogs) : (es.foldl logPush acc).length ≤ maxLogs := by
  induction es generalizing acc with
  | nil => exact h
  | cons e es ih => exact ih (logPush acc e) (logPush_length_le acc e h)

/-- Every entry in the buffer after a log call was already there or is the
new entry. -/
theorem mem_logPush (x : LogEntry) (logs : List LogEntry) (e : LogEntry)
    (h : x ∈ logPush logs e) : x ∈ logs ∨ x = e := by
  unfold logPush at h
  dsimp only at h
  by_cases hc : maxLogs < (logs ++ [e]).length
  · simp only [if_pos hc] at h
    have := List.mem_of_mem_tail h
    rcases List.mem_append.mp this with h1 | h1
    · exact Or.inl h1
    · exact Or.inr (List.mem_singleton.mp h1)
  · simp only [if_neg hc] at h
    rcases List.mem_append.mp h with h1 | h1
    · exact Or.inl h1
    · exact Or.inr (List.mem_singleton.mp h1)

/-- Every entry in the buffer after a sequence of log calls was in the
initial buffer or among the logged entries. -/
theorem mem_foldl_logPush (x : LogEntry) (es acc : List LogEntry)
    (h : x ∈ es.foldl logPush acc) : x ∈ acc ∨ x ∈ es := by
  induction es generalizing acc with
  | nil => exact Or.inl h
  | cons e es ih =>
    rcases ih (logPush acc e) h with h1 | h1
    · rcases mem_logPush x acc e h1 with h2 | h2
      · exact Or.inl h2
      · exact Or.inr (h2 ▸ List.mem_cons_self e es)
    · exact Or.inr (List.mem_cons_of_mem e h1)

/-- A log call at the bound discards exactly the oldest entry and appends
the new one, keeping the rest in order. -/
theorem logPush_at_bound (logs : List LogEntry) (e : LogEntry)
    (h : logs.length = maxLogs) : logPush logs e = logs.tail ++ [e] := by
  unfold logPush
  dsimp only
  have hc : maxLogs < (logs ++ [e]).length := by
    simp [List.length_append, h]
  simp only [if_pos hc]
  cases logs with
  | nil => simp [maxLogs] at h
  | cons a l => simp

/-- C9: the ErrorLogger buffer is a bounded ring buffer.  Starting from the
empty buffer, any sequence of log calls leaves at most maxLogs = 100
entries; a log call arriving when the buffer holds exactly maxLogs entries
discards the oldest entry and appends the new one with the rest retained in
order; and every entry held is one of the logged LogEntry records, each of
which carries a timestamp, a severity level, a message and an optional
error detail by construction. -/
theorem errorLogger_bounded_ring_buffer (es logs : List LogEntry)
    (e x : LogEntry) :
    (es.foldl logPush []).length ≤ maxLogs
  ∧ (logs.length = maxLogs → logPush logs e = logs.tail ++ [e])
  ∧ (x ∈ es.foldl logPush [] → x ∈ es) := by
  refine ⟨foldl_logPush_length_le es [] (by simp [maxLogs]),
    logPush_at_bound logs e, fun h => ?_⟩
  rcases mem_foldl_logPush x es [] h with h1 | h1
  · cases h1
  · exact h1

/-- C9 witness: logging onto a full buffer of 100 entries drops the oldest
entry, and a logged entry is retrievable from the buffer it produced. -/
theorem errorLogger_bounded_ring_buffer_witness :
    logPush (List.replicate 100 sampleEntry) sampleEntry2
      = (List.replicate 100 sampleEntry).tail ++ [sampleEntry2]
  ∧ sampleEntry ∈ ([sampleEntry] : List LogEntry) :=
  ⟨(errorLogger_bounded_ring_buffer [] (List.replicate 100 sampleEntry)
      sampleEntry2 sampleEntry).2.1 (by simp [maxLogs]),
   (errorLogger_bounded_ring_buffer [sampleEntry] [] sampleEntry2
      sampleEntry).2.2 (by simp [logPush, maxLogs])⟩

end HelpDesk
